import Mathlib

/-
  Verification development for the deepagents CLI tools module
  (deepagents_cli/tools.py): multi-provider web search with fallback,
  generic HTTP requests, and page fetching.

  Python dictionaries are embedded as association lists of string keys and
  PyVal values; external effects (search backends, the HTTP transport, the
  markdown converter) are passed in as explicit oracle arguments, so each
  boundary function is a total Lean function of its inputs and oracles.
-/

/-- Embedding of a Python JSON-like value. Numbers are rationals. -/
inductive PyVal where
  | str : String → PyVal
  | num : ℚ → PyVal
  | bool : Bool → PyVal
  | list : List PyVal → PyVal
  | dict : List (String × PyVal) → PyVal
  | none : PyVal

/-- A Python dict with string keys, as an insertion-ordered association list. -/
abbrev PyDict := List (String × PyVal)

/-- Python `k in d` on a dict. -/
def hasKey (d : PyDict) (k : String) : Bool :=
  d.any (fun kv => kv.1 == k)

/-- Python `d.get(k)` on a dict (None when missing). -/
def pyGet (d : PyDict) (k : String) : Option PyVal :=
  (d.find? (fun kv => kv.1 == k)).map (fun kv => kv.2)

/-- Python `d[k] = v`: replace the value in place when the key exists,
append otherwise. -/
def setItem (d : PyDict) (k : String) (v : PyVal) : PyDict :=
  if hasKey d k then d.map (fun kv => if kv.1 == k then (k, v) else kv)
  else d ++ [(k, v)]

/-- One raw result dict from the duckduckgo backend; fields that may be
absent from the backend dict are Options. -/
structure DDGRaw where
  title : Option String
  href : Option String
  body : Option String

/-- One raw organic result dict from the Serper backend. -/
structure SerperRaw where
  title : Option String
  link : Option String
  snippet : Option String

/-- Parsed JSON body of a Serper response: the optional organic list. -/
structure SerperData where
  organic : Option (List SerperRaw)

/-- The module-level provider state of tools.py: whether the Tavily client
object was constructed (a client object is truthy in Python), the raw
SERPER_API_KEY environment value, and whether duckduckgo_search imported. -/
structure SearchState where
  tavilyClient : Bool
  serperApiKey : Option String
  ddgAvailable : Bool

/-- Behavior oracles for the three backends called by this process: what the
backend call for the current query returns, or the exception message it
raises. -/
structure Backends where
  tavily : Except String PyDict
  serper : Except String SerperData
  ddg : Except String (List DDGRaw)

/-- Python truthiness of an optional string: None and the empty string are
falsy. -/
def pyTruthyStr : Option String → Bool
  | Option.none => false
  | Option.some s => !(s == "")

/-- Embedding of tools._search_duckduckgo. -/
def search_duckduckgo (ddg : Except String (List DDGRaw)) (query : String)
    (max_results : Nat) : PyDict :=
  match ddg with
  | .ok results =>
      [("results", PyVal.list (results.map (fun r =>
          PyVal.dict [("title", PyVal.str (r.title.getD "")),
                      ("url", PyVal.str (r.href.getD "")),
                      ("content", PyVal.str (r.body.getD "")),
                      ("score", PyVal.num 1)]))),
       ("query", PyVal.str query),
       ("provider", PyVal.str "duckduckgo")]
  | .error e => [("error", PyVal.str ("DuckDuckGo search error: " ++ e)),
                 ("query", PyVal.str query)]

/-- Embedding of tools._search_serper: slices the organic list to
max_results, maps backend field names onto the unified vocabulary. -/
def search_serper (serper : Except String SerperData) (query : String)
    (max_results : Nat) : PyDict :=
  match serper with
  | .ok data =>
      let results := ((data.organic.getD []).take max_results).map (fun r =>
        PyVal.dict [("title", PyVal.str (r.title.getD "")),
                    ("url", PyVal.str (r.link.getD "")),
                    ("content", PyVal.str (r.snippet.getD "")),
                    ("score", PyVal.num 1)])
      [("results", PyVal.list results),
       ("query", PyVal.str query),
       ("provider", PyVal.str "serper")]
  | .error e => [("error", PyVal.str ("Serper search error: " ++ e)),
                 ("query", PyVal.str query)]

/-- Embedding of tools._search_tavily: the backend dict is returned as-is
with the provider key set; exceptions become the error shape. The query,
max_results, topic and include_raw_content arguments are forwarded to the
client, which the oracle absorbs. -/
def search_tavily (tavily : Except String PyDict) (query : String)
    (max_results : Nat) (topic : String) (include_raw_content : Bool) : PyDict :=
  match tavily with
  | .ok result => setItem result "provider" (PyVal.str "tavily")
  | .error e => [("error", PyVal.str ("Tavily search error: " ++ e)),
                 ("query", PyVal.str query)]

/-- The exact no-provider error message of tools.web_search. -/
def noProviderMsg : String :=
  "No search provider available. Set TAVILY_API_KEY or SERPER_API_KEY, or install duckduckgo-search (pip install duckduckgo-search)."

/-- The failure dict web_search returns when every guard fails. -/
def noProvDict (query : String) : PyDict :=
  [("error", PyVal.str noProviderMsg), ("query", PyVal.str query)]

/-- The three search providers in the fixed priority order of web_search. -/
inductive Provider where
  | tavily
  | serper
  | duckduckgo
deriving DecidableEq

/-- The display name of a provider, as used by get_search_provider. -/
def Provider.pname : Provider → String
  | .tavily => "Tavily"
  | .serper => "Serper"
  | .duckduckgo => "DuckDuckGo"

/-- The response each adapter produces for the current call, per provider. -/
def adapterResp (bs : Backends) (query : String) (max_results : Nat)
    (topic : String) (include_raw_content : Bool) : Provider → PyDict
  | .tavily => search_tavily bs.tavily query max_results topic include_raw_content
  | .serper => search_serper bs.serper query max_results
  | .duckduckgo => search_duckduckgo bs.ddg query max_results

/-- The providers whose web_search guard passes, in priority order. The
guards are the truthiness tests of web_search itself: a constructed client
object, a nonempty API key string, the import flag. -/
def availableProviders (st : SearchState) : List Provider :=
  (if st.tavilyClient then [Provider.tavily] else []) ++
  (if pyTruthyStr st.serperApiKey then [Provider.serper] else []) ++
  (if st.ddgAvailable then [Provider.duckduckgo] else [])

/-- Embedding of tools.web_search, instrumented with the ordered list of
adapters actually invoked. Each guarded block mirrors one fall-through
block of the source: invoke the adapter, return its result when it has no
error key, otherwise continue with the next block. -/
def web_search_run (st : SearchState) (bs : Backends) (query : String)
    (max_results : Nat) (topic : String) (include_raw_content : Bool) :
    PyDict × List Provider :=
  let fallback : PyDict × List Provider := (noProvDict query, [])
  let tryDdg : PyDict × List Provider :=
    if st.ddgAvailable then
      let result := search_duckduckgo bs.ddg query max_results
      if hasKey result "error" then (fallback.1, Provider.duckduckgo :: fallback.2)
      else (result, [Provider.duckduckgo])
    else fallback
  let trySerper : PyDict × List Provider :=
    if pyTruthyStr st.serperApiKey then
      let result := search_serper bs.serper query max_results
      if hasKey result "error" then (tryDdg.1, Provider.serper :: tryDdg.2)
      else (result, [Provider.serper])
    else tryDdg
  if st.tavilyClient then
    let result := search_tavily bs.tavily query max_results topic include_raw_content
    if hasKey result "error" then (trySerper.1, Provider.tavily :: trySerper.2)
    else (result, [Provider.tavily])
  else trySerper

/-- The dict tools.web_search returns. -/
def web_search (st : SearchState) (bs : Backends) (query : String)
    (max_results : Nat) (topic : String) (include_raw_content : Bool) : PyDict :=
  (web_search_run st bs query max_results topic include_raw_content).1

/-- Reference fallback chain: try the given providers in order, return the
first response without an error key, or the no-provider dict; the second
component records the adapters invoked. -/
def dispatch (resp : Provider → PyDict) (query : String) :
    List Provider → PyDict × List Provider
  | [] => (noProvDict query, [])
  | p :: ps =>
    let r := resp p
    if hasKey r "error" then
      let rest := dispatch resp query ps
      (rest.1, p :: rest.2)
    else (r, [p])

/-- Embedding of tools.is_search_available. -/
def is_search_available (st : SearchState) : Bool :=
  st.tavilyClient || st.serperApiKey.isSome || st.ddgAvailable

/-- Embedding of tools.get_search_provider: note the is-not-None tests, in
contrast with the truthiness guards of web_search. -/
def get_search_provider (st : SearchState) : Option String :=
  if st.tavilyClient then some "Tavily"
  else if st.serperApiKey.isSome then some "Serper"
  else if st.ddgAvailable then some "DuckDuckGo"
  else none

/-- Transport-level faults the requests library can raise, by handler:
requests.exceptions.Timeout, other requests.exceptions.RequestException,
and any other Exception. -/
inductive TransportErr where
  | timeout
  | requestExc (msg : String)
  | otherExc (msg : String)

/-- A completed HTTP response as http_request consumes it: status, headers,
the parsed JSON body when response.json() succeeds (None when parsing
fails, in which case response.text is used), the body text, and the final
URL after redirects. -/
structure HttpResp where
  status_code : Nat
  headers : List (String × String)
  jsonBody : Option PyVal
  text : String
  url : String

/-- The kwargs dict http_request passes to requests.request; the optional
entries are present only when actually set. -/
structure Kwargs where
  url : String
  method : String
  timeout : Nat
  headers : Option (List (String × String))
  params : Option (List (String × String))
  json : Option (List (String × PyVal))

/-- Python truthiness of an optional dict or list: None and the empty
collection are falsy. -/
def pyTruthyList {α : Type} : Option (List α) → Bool
  | Option.none => false
  | Option.some l => !l.isEmpty

/-- The kwargs http_request builds: url, upper-cased method and timeout
always; headers, params and data only when truthy, data under the json
key. -/
def buildKwargs (url method : String) (headers : Option (List (String × String)))
    (data : Option (List (String × PyVal))) (params : Option (List (String × String)))
    (timeout : Nat) : Kwargs :=
  let kwargs : Kwargs := ⟨url, method.toUpper, timeout, Option.none, Option.none, Option.none⟩
  let kwargs := if pyTruthyList headers then { kwargs with headers := headers } else kwargs
  let kwargs := if pyTruthyList params then { kwargs with params := params } else kwargs
  let kwargs := if pyTruthyList data then { kwargs with json := data } else kwargs
  kwargs

/-- The dict http_request returns, as a record: its five keys are always
exactly success, status_code, headers, content, url. -/
structure HttpOutcome where
  success : Bool
  status_code : Nat
  headers : List (String × String)
  content : PyVal
  url : String

/-- The diagnostic string http_request stores in content for each
transport-level fault. -/
def transportDiag (timeout : Nat) : TransportErr → String
  | .timeout => "Request timed out after " ++ toString timeout ++ " seconds"
  | .requestExc m => "Request error: " ++ m
  | .otherExc m => "Error making request: " ++ m

/-- Embedding of tools.http_request over a transport oracle mapping the
built kwargs to a completed response or a fault. -/
def http_request (net : Kwargs → Except TransportErr HttpResp) (url : String)
    (method : String) (headers : Option (List (String × String)))
    (data : Option (List (String × PyVal))) (params : Option (List (String × String)))
    (timeout : Nat) : HttpOutcome :=
  match net (buildKwargs url method headers data params timeout) with
  | .ok response =>
      let content : PyVal := match response.jsonBody with
        | Option.some v => v
        | Option.none => PyVal.str response.text
      ⟨decide (response.status_code < 400), response.status_code,
       response.headers, content, response.url⟩
  | .error .timeout =>
      ⟨false, 0, [], PyVal.str ("Request timed out after " ++ toString timeout ++ " seconds"), url⟩
  | .error (.requestExc m) =>
      ⟨false, 0, [], PyVal.str ("Request error: " ++ m), url⟩
  | .error (.otherExc m) =>
      ⟨false, 0, [], PyVal.str ("Error making request: " ++ m), url⟩

/-- A completed response as fetch_url consumes it: status, the reason
phrase, the body text and the final URL. -/
structure GetResp where
  status_code : Nat
  reason : String
  text : String
  url : String

/-- Model of requests.Response.raise_for_status from the requests library:
for a 4xx status it raises an HTTPError whose message is
"status Client Error: reason for url: url", for a 5xx status the Server
Error analogue, otherwise nothing. -/
def raise_for_status (r : GetResp) : Option String :=
  if 400 ≤ r.status_code ∧ r.status_code < 500 then
    some (toString r.status_code ++ " Client Error: " ++ r.reason ++ " for url: " ++ r.url)
  else if 500 ≤ r.status_code ∧ r.status_code < 600 then
    some (toString r.status_code ++ " Server Error: " ++ r.reason ++ " for url: " ++ r.url)
  else none

/-- Embedding of tools.fetch_url over a transport oracle for this call and
a markdown-conversion oracle md standing for markdownify. The timeout is
forwarded to requests.get, which the oracle absorbs. -/
def fetch_url (net : Except String GetResp) (md : String → String)
    (url : String) (timeout : Nat) : PyDict :=
  match net with
  | .error e => [("error", PyVal.str ("Fetch URL error: " ++ e)),
                 ("url", PyVal.str url)]
  | .ok response =>
    match raise_for_status response with
    | some e => [("error", PyVal.str ("Fetch URL error: " ++ e)),
                 ("url", PyVal.str url)]
    | none =>
      let markdown_content := md response.text
      [("url", PyVal.str response.url),
       ("markdown_content", PyVal.str markdown_content),
       ("status_code", PyVal.num (response.status_code : ℚ)),
       ("content_length", PyVal.num (markdown_content.length : ℚ))]

/-- The results list of a search response dict: the value of the results
key when present and a list, else empty. -/
def getResults (d : PyDict) : List PyVal :=
  match pyGet d "results" with
  | some (PyVal.list l) => l
  | _ => []

/-- The score of a result item dict, when present and numeric. -/
def itemScore (v : PyVal) : Option ℚ :=
  match v with
  | PyVal.dict d =>
    match pyGet d "score" with
    | some (PyVal.num x) => some x
    | _ => Option.none
  | _ => Option.none

/-- A unified result item: exactly the four fields title, url, content,
score, the first three strings and the score exactly 1. -/
def unifiedItem (v : PyVal) : Prop :=
  ∃ t u c, v = PyVal.dict [("title", PyVal.str t), ("url", PyVal.str u),
                           ("content", PyVal.str c), ("score", PyVal.num 1)]

/-- The success shape of a SearchResponse: exactly results, query,
provider. -/
def successShape (d : PyDict) : Prop :=
  ∃ rs qq pp, d = [("results", PyVal.list rs), ("query", PyVal.str qq),
                   ("provider", PyVal.str pp)]

/-- The failure shape of a SearchResponse: exactly error, query. -/
def failureShape (d : PyDict) : Prop :=
  ∃ e qq, d = [("error", PyVal.str e), ("query", PyVal.str qq)]

/-- A Tavily backend result item carrying a score of 2. -/
def tavilyBadItem : PyVal :=
  PyVal.dict [("title", PyVal.str "t"), ("url", PyVal.str "u"),
              ("content", PyVal.str "c"), ("score", PyVal.num 2)]

/-- A Tavily backend response dict holding tavilyBadItem. -/
def tavilyBadDict : PyDict :=
  [("results", PyVal.list [tavilyBadItem]), ("query", PyVal.str "q")]

/-- A fully populated raw duckduckgo result. -/
def ddgRaw0 : DDGRaw := ⟨some "t", some "u", some "b"⟩

/-- A sample provider state with all three guards passing. -/
def stAll : SearchState := ⟨true, some "k", true⟩

/-- Sample backends where Tavily raises and Serper and DuckDuckGo
succeed. -/
def bsSerperOk : Backends := ⟨.error "boom", .ok ⟨some []⟩, .ok []⟩

/-- A 404 response for the fetch witness. -/
def resp404 : GetResp := ⟨404, "NOT FOUND", "<html></html>", "http://x/e"⟩

/-- web_search_run is the priority-ordered first-success fallback chain
over the providers whose guard passes. -/
theorem web_search_run_eq_dispatch (st : SearchState) (bs : Backends) (q : String)
    (mr : Nat) (tp : String) (rw : Bool) :
    web_search_run st bs q mr tp rw =
      dispatch (adapterResp bs q mr tp rw) q (availableProviders st) := by
  obtain ⟨tb, sk, db⟩ := st
  cases tb <;> cases hs : pyTruthyStr sk <;> cases db <;>
    simp [web_search_run, availableProviders, dispatch, adapterResp, hs]

/-- The invoked list of the fallback chain is a prefix of the provider
list it was given. -/
theorem dispatch_invoked_ordered (resp : Provider → PyDict) (q : String) :
    ∀ l : List Provider, ∃ t, (dispatch resp q l).2 ++ t = l := by
  intro l
  induction l with
  | nil => exact ⟨[], rfl⟩
  | cons p ps ih =>
    by_cases h : hasKey (resp p) "error" = true
    · obtain ⟨t, ht⟩ := ih
      exact ⟨t, by simp [dispatch, h, ht]⟩
    · exact ⟨ps, by simp [dispatch, h]⟩

/-- The fallback chain returns the response of the first provider without
an error key, having invoked exactly the erroring providers before it and
that provider; when every response errors it returns the no-provider dict
having invoked the whole list. -/
theorem dispatch_first_success (resp : Provider → PyDict) (q : String) :
    ∀ l : List Provider,
      (∀ p, l.find? (fun x => !(hasKey (resp x) "error")) = some p →
        dispatch resp q l =
          (resp p, l.takeWhile (fun x => hasKey (resp x) "error") ++ [p])) ∧
      (l.find? (fun x => !(hasKey (resp x) "error")) = none →
        dispatch resp q l = (noProvDict q, l)) := by
  intro l
  induction l with
  | nil => exact ⟨fun p h => by simp [List.find?] at h, fun _ => rfl⟩
  | cons hd tl ih =>
    cases h : hasKey (resp hd) "error" with
    | false =>
      refine ⟨fun p hp => ?_, fun hn => ?_⟩
      · have hph : p = hd := by
          have := hp
          simp [List.find?_cons, h] at this
          exact this.symm
        subst hph
        simp [dispatch, h, List.takeWhile_cons]
      · exfalso
        simp [List.find?_cons, h] at hn
    | true =>
      refine ⟨fun p hp => ?_, fun hn => ?_⟩
      · have hp2 : tl.find? (fun x => !(hasKey (resp x) "error")) = some p := by
          simpa [List.find?_cons, h] using hp
        have hrec := ih.1 p hp2
        simp [dispatch, h, hrec, List.takeWhile_cons]
      · have hn2 : tl.find? (fun x => !(hasKey (resp x) "error")) = none := by
          simpa [List.find?_cons, h] using hn
        have hrec := ih.2 hn2
        simp [dispatch, h, hrec, List.takeWhile_cons]

/-- Claim C1: for every availability configuration and query, web_search
tries exactly the providers whose guard passes, in the fixed priority
order Tavily, Serper, DuckDuckGo (the invoked list is a prefix of that
ordered list); it returns the response of the first adapter whose response
carries no error key, invoking precisely the erroring adapters before it
and that adapter and no lower-priority one; when no adapter succeeds it
returns the no-provider failure dict after invoking every available
adapter. -/
theorem web_search_first_success (st : SearchState) (bs : Backends) (q : String)
    (mr : Nat) (tp : String) (rw : Bool) :
    (∃ t, (web_search_run st bs q mr tp rw).2 ++ t = availableProviders st) ∧
    (∀ p, (availableProviders st).find?
        (fun x => !(hasKey (adapterResp bs q mr tp rw x) "error")) = some p →
      web_search_run st bs q mr tp rw =
        (adapterResp bs q mr tp rw p,
         (availableProviders st).takeWhile
           (fun x => hasKey (adapterResp bs q mr tp rw x) "error") ++ [p])) ∧
    ((availableProviders st).find?
        (fun x => !(hasKey (adapterResp bs q mr tp rw x) "error")) = none →
      web_search_run st bs q mr tp rw = (noProvDict q, availableProviders st)) := by
  rw [web_search_run_eq_dispatch]
  exact ⟨dispatch_invoked_ordered _ _ _,
         (dispatch_first_success _ _ _).1,
         (dispatch_first_success _ _ _).2⟩

/-- Witness for C1: with all three guards passing, a Tavily backend that
raises and a Serper backend that succeeds, web_search invokes Tavily then
Serper only and returns the Serper adapter response. -/
theorem web_search_first_success_w :
    web_search_run stAll bsSerperOk "q" 5 "general" false =
      (adapterResp bsSerperOk "q" 5 "general" false Provider.serper,
       [Provider.tavily, Provider.serper]) := by
  have h := (web_search_first_success stAll bsSerperOk "q" 5 "general" false).2.1
    Provider.serper (by rfl)
  exact h.trans rfl

/-- Claim C2: when no provider guard can pass (no Tavily client, no Serper
API key, duckduckgo module absent), web_search invokes no adapter at all
and returns exactly the no-provider failure dict echoing the input
query. -/
theorem web_search_no_provider (bs : Backends) (q : String) (mr : Nat)
    (tp : String) (rw : Bool) :
    web_search_run ⟨false, Option.none, false⟩ bs q mr tp rw =
      ([("error", PyVal.str noProviderMsg), ("query", PyVal.str q)], []) := rfl

/-- The fallback chain always invokes the head of a nonempty provider
list first. -/
theorem dispatch_head (resp : Provider → PyDict) (q : String) (p : Provider)
    (ps : List Provider) :
    ((dispatch resp q (p :: ps)).2).head? = some p := by
  by_cases h : hasKey (resp p) "error" = true <;> simp [dispatch, h]

/-- Claim C9 (amended): get_search_provider returns None exactly when
is_search_available is false; and provided the Serper API key, when set,
is not the empty string, the name get_search_provider returns is exactly
the first provider web_search invokes (None when web_search invokes no
adapter). With an empty-string key the two disagree, since
get_search_provider tests is-not-None while web_search tests
truthiness. -/
theorem get_search_provider_agrees :
    (∀ st : SearchState,
      (get_search_provider st = Option.none ↔ is_search_available st = false)) ∧
    (∀ (st : SearchState) (bs : Backends) (q : String) (mr : Nat) (tp : String) (rw : Bool),
      st.serperApiKey ≠ some "" →
      ((web_search_run st bs q mr tp rw).2.head?).map Provider.pname =
        get_search_provider st) := by
  constructor
  · intro st
    obtain ⟨tb, sk, db⟩ := st
    cases tb <;> cases sk <;> cases db <;>
      simp [get_search_provider, is_search_available]
  · intro st bs q mr tp rw hsk
    obtain ⟨tb, sk, db⟩ := st
    rw [web_search_run_eq_dispatch]
    cases tb with
    | true =>
      simp [availableProviders, dispatch_head, get_search_provider, Provider.pname]
    | false =>
      cases sk with
      | none =>
        cases db with
        | true =>
          simp [availableProviders, pyTruthyStr, dispatch_head,
                get_search_provider, Provider.pname]
        | false =>
          simp [availableProviders, pyTruthyStr, dispatch, get_search_provider]
      | some s =>
        have hne : s ≠ "" := fun h => hsk (by rw [show (⟨false, some s, db⟩ : SearchState).serperApiKey = some s from rfl, h])
        have hs : (s == "") = false := beq_eq_false_iff_ne.mpr hne
        cases db <;>
          simp [availableProviders, pyTruthyStr, hs, dispatch_head,
                get_search_provider, Provider.pname]

/-- Witness for C9 at a state with only a nonempty Serper key. -/
theorem get_search_provider_agrees_w :
    ((web_search_run ⟨false, some "k", false⟩ bsSerperOk "q" 5 "general" false).2.head?).map
        Provider.pname =
      get_search_provider ⟨false, some "k", false⟩ :=
  get_search_provider_agrees.2 ⟨false, some "k", false⟩ bsSerperOk "q" 5 "general" false
    (by decide)

/-- Counterexample for C9: with an empty-string Serper key and the
duckduckgo module present, get_search_provider reports Serper while
web_search skips Serper and invokes DuckDuckGo first. -/
theorem get_search_provider_agrees_cex :
    get_search_provider ⟨false, some "", true⟩ = some "Serper" ∧
    ((web_search_run ⟨false, some "", true⟩
        ⟨Except.error "e", Except.error "e", Except.ok []⟩
        "q" 5 "general" false).2.head?).map Provider.pname = some "DuckDuckGo" :=
  ⟨rfl, rfl⟩

/-- The result of the fallback chain is the no-provider dict or carries no
error key. -/
theorem dispatch_out_err (resp : Provider → PyDict) (q : String) :
    ∀ l : List Provider,
      (dispatch resp q l).1 = noProvDict q ∨
      hasKey ((dispatch resp q l).1) "error" = false := by
  intro l
  induction l with
  | nil => exact Or.inl rfl
  | cons p ps ih =>
    by_cases h : hasKey (resp p) "error" = true
    · rcases ih with h2 | h2
      · exact Or.inl (by simp [dispatch, h, h2])
      · refine Or.inr ?_
        simpa [dispatch, h] using h2
    · have hf : hasKey (resp p) "error" = false := by simpa using h
      exact Or.inr (by simp [dispatch, hf])

/-- Claim C6 (amended): a web_search return value carrying an error key is
exactly the no-provider failure dict, so for web_search the error key
alone distinguishes the two cases; the DuckDuckGo and Serper adapters
always return exactly one of the two shapes; the Tavily adapter, which
passes the backend dict through, is excluded since its shape is whatever
the backend produced. -/
theorem response_shape_exclusive :
    (∀ (st : SearchState) (bs : Backends) (q : String) (mr : Nat) (tp : String) (rw : Bool),
      hasKey (web_search st bs q mr tp rw) "error" = true →
      web_search st bs q mr tp rw = noProvDict q) ∧
    (∀ (ddg : Except String (List DDGRaw)) (q : String) (mr : Nat),
      (successShape (search_duckduckgo ddg q mr) ∧
        hasKey (search_duckduckgo ddg q mr) "error" = false) ∨
      (failureShape (search_duckduckgo ddg q mr) ∧
        hasKey (search_duckduckgo ddg q mr) "error" = true)) ∧
    (∀ (sp : Except String SerperData) (q : String) (mr : Nat),
      (successShape (search_serper sp q mr) ∧
        hasKey (search_serper sp q mr) "error" = false) ∨
      (failureShape (search_serper sp q mr) ∧
        hasKey (search_serper sp q mr) "error" = true)) := by
  refine ⟨?_, ?_, ?_⟩
  · intro st bs q mr tp rw hk
    have h := dispatch_out_err (adapterResp bs q mr tp rw) q (availableProviders st)
    simp only [web_search, web_search_run_eq_dispatch] at hk ⊢
    rcases h with h | h
    · exact h
    · rw [h] at hk
      cases hk
  · intro ddg q mr
    cases ddg with
    | ok rs => exact Or.inl ⟨⟨_, q, "duckduckgo", rfl⟩, rfl⟩
    | error e => exact Or.inr ⟨⟨"DuckDuckGo search error: " ++ e, q, rfl⟩, rfl⟩
  · intro sp q mr
    cases sp with
    | ok data => exact Or.inl ⟨⟨_, q, "serper", rfl⟩, rfl⟩
    | error e => exact Or.inr ⟨⟨"Serper search error: " ++ e, q, rfl⟩, rfl⟩

/-- Witness for C6 at the empty provider state. -/
theorem response_shape_exclusive_w :
    web_search ⟨false, Option.none, false⟩ bsSerperOk "q" 5 "general" false =
      noProvDict "q" :=
  response_shape_exclusive.1 ⟨false, Option.none, false⟩ bsSerperOk "q" 5 "general" false rfl

/-- Counterexample for C6: a Tavily backend success dict that itself holds
an error key makes the Tavily adapter return a dict with an error key and
a provider key but no query key, which is neither of the two claimed
mutually exclusive shapes. -/
theorem response_shape_exclusive_cex :
    search_tavily (Except.ok [("error", PyVal.str "x")]) "q" 5 "general" false =
      [("error", PyVal.str "x"), ("provider", PyVal.str "tavily")] ∧
    hasKey (search_tavily (Except.ok [("error", PyVal.str "x")]) "q" 5 "general" false)
      "query" = false ∧
    hasKey (search_tavily (Except.ok [("error", PyVal.str "x")]) "q" 5 "general" false)
      "error" = true :=
  ⟨rfl, rfl, rfl⟩

/-- Claim C4 (amended): every result item produced by the DuckDuckGo and
Serper adapters has exactly the four unified fields title, url, content,
score, the first three strings with missing backend data defaulted to the
empty string and the score exactly 1, hence in [0,1]; the Tavily adapter
is excluded since it forwards the backend items unchanged. -/
theorem adapter_items_unified (ddg : Except String (List DDGRaw))
    (sp : Except String SerperData) (q : String) (mr : Nat) :
    (∀ v ∈ getResults (search_duckduckgo ddg q mr), unifiedItem v) ∧
    (∀ v ∈ getResults (search_serper sp q mr), unifiedItem v) := by
  constructor
  · intro v hv
    cases ddg with
    | error e => exact absurd (hv : v ∈ ([] : List PyVal)) (List.not_mem_nil v)
    | ok rs =>
      have hv2 : v ∈ rs.map (fun r =>
          PyVal.dict [("title", PyVal.str (r.title.getD "")),
                      ("url", PyVal.str (r.href.getD "")),
                      ("content", PyVal.str (r.body.getD "")),
                      ("score", PyVal.num 1)]) := hv
      obtain ⟨r, _, hr⟩ := List.mem_map.mp hv2
      exact ⟨_, _, _, hr.symm⟩
  · intro v hv
    cases sp with
    | error e => exact absurd (hv : v ∈ ([] : List PyVal)) (List.not_mem_nil v)
    | ok data =>
      have hv2 : v ∈ ((data.organic.getD []).take mr).map (fun r =>
          PyVal.dict [("title", PyVal.str (r.title.getD "")),
                      ("url", PyVal.str (r.link.getD "")),
                      ("content", PyVal.str (r.snippet.getD "")),
                      ("score", PyVal.num 1)]) := hv
      obtain ⟨r, _, hr⟩ := List.mem_map.mp hv2
      exact ⟨_, _, _, hr.symm⟩

/-- Witness for C4: a backend result with every field missing yields the
item with all strings defaulted to empty and score 1. -/
theorem adapter_items_unified_w :
    unifiedItem (PyVal.dict [("title", PyVal.str ""), ("url", PyVal.str ""),
                             ("content", PyVal.str ""), ("score", PyVal.num 1)]) :=
  (adapter_items_unified (Except.ok [⟨Option.none, Option.none, Option.none⟩])
      (Except.ok ⟨some []⟩) "q" 5).1 _ (List.Mem.head _)

/-- Counterexample for C4: the Tavily adapter passes a backend item with
score 2 through unchanged, so an adapter-produced item has a score outside
[0,1]. -/
theorem adapter_items_unified_cex :
    (getResults (search_tavily (Except.ok tavilyBadDict) "q" 5 "general" false)).head? =
      some tavilyBadItem ∧
    itemScore tavilyBadItem = some 2 ∧ ¬((2 : ℚ) ≤ 1) :=
  ⟨rfl, rfl, by norm_num⟩

/-- A find?-then-project lookup ignores the replacement of entries at a
different key. -/
theorem pyGet_map_set (k j : String) (v : PyVal) (h : j ≠ k) :
    ∀ d : PyDict,
      ((d.map (fun kv => if kv.1 == k then (k, v) else kv)).find?
          (fun kv => kv.1 == j)).map (fun kv => kv.2) =
        (d.find? (fun kv => kv.1 == j)).map (fun kv => kv.2) := by
  intro d
  induction d with
  | nil => rfl
  | cons kv tl ih =>
    obtain ⟨a, b⟩ := kv
    simp only [List.map_cons]
    by_cases hk : (a == k) = true
    · have hkk : a = k := eq_of_beq hk
      have hj : ¬ ((a == j) = true) := by
        rw [hkk]
        intro hc
        exact h (eq_of_beq hc).symm
      have hkj : ¬ ((k == j) = true) := fun hc => h (eq_of_beq hc).symm
      rw [if_pos hk,
          List.find?_cons_of_neg (p := fun kv : String × PyVal => kv.1 == j) _ hkj,
          List.find?_cons_of_neg (p := fun kv : String × PyVal => kv.1 == j) _ hj]
      exact ih
    · rw [if_neg hk]
      by_cases hj : (a == j) = true
      · rw [List.find?_cons_of_pos (p := fun kv : String × PyVal => kv.1 == j) _ hj,
            List.find?_cons_of_pos (p := fun kv : String × PyVal => kv.1 == j) _ hj]
      · rw [List.find?_cons_of_neg (p := fun kv : String × PyVal => kv.1 == j) _ hj,
            List.find?_cons_of_neg (p := fun kv : String × PyVal => kv.1 == j) _ hj]
        exact ih

/-- Appending an entry at a different key does not change a lookup. -/
theorem pyGet_append_ne (k j : String) (v : PyVal) (h : j ≠ k) :
    ∀ d : PyDict, pyGet (d ++ [(k, v)]) j = pyGet d j := by
  intro d
  induction d with
  | nil =>
    have hkj : (k == j) = false := beq_eq_false_iff_ne.mpr (Ne.symm h)
    simp [pyGet, List.find?, hkj]
  | cons kv tl ih =>
    by_cases hj : kv.1 == j
    · simp [pyGet, List.find?_cons, hj]
    · simpa [pyGet, List.find?_cons, hj] using ih

/-- setItem at one key leaves lookups at any other key unchanged. -/
theorem pyGet_setItem_ne (d : PyDict) (k j : String) (v : PyVal) (h : j ≠ k) :
    pyGet (setItem d k v) j = pyGet d j := by
  unfold setItem
  by_cases hk : hasKey d k = true
  · simpa [hk, pyGet] using pyGet_map_set k j v h d
  · simp only [hk]
    exact pyGet_append_ne k j v h d

/-- Claim C5 (amended): the Serper adapter slices the organic backend list
to max_results, so its successful response never holds more than
max_results items; the DuckDuckGo adapter does not slice but only forwards
max_results to the backend, so its response holds exactly as many items as
the backend returned; the Tavily adapter passes the backend results entry
through unchanged. -/
theorem results_truncation :
    (∀ (data : SerperData) (q : String) (mr : Nat),
      (getResults (search_serper (Except.ok data) q mr)).length ≤ mr) ∧
    (∀ (raws : List DDGRaw) (q : String) (mr : Nat),
      (getResults (search_duckduckgo (Except.ok raws) q mr)).length = raws.length) ∧
    (∀ (d : PyDict) (q : String) (mr : Nat) (tp : String) (rw : Bool),
      pyGet (search_tavily (Except.ok d) q mr tp rw) "results" = pyGet d "results") := by
  refine ⟨?_, ?_, ?_⟩
  · intro data q mr
    show (((data.organic.getD []).take mr).map (fun r =>
        PyVal.dict [("title", PyVal.str (r.title.getD "")),
                    ("url", PyVal.str (r.link.getD "")),
                    ("content", PyVal.str (r.snippet.getD "")),
                    ("score", PyVal.num 1)])).length ≤ mr
    rw [List.length_map, List.length_take]
    exact min_le_left _ _
  · intro raws q mr
    show (raws.map (fun r =>
        PyVal.dict [("title", PyVal.str (r.title.getD "")),
                    ("url", PyVal.str (r.href.getD "")),
                    ("content", PyVal.str (r.body.getD "")),
                    ("score", PyVal.num 1)])).length = raws.length
    exact List.length_map _ _
  · intro d q mr tp rw
    exact pyGet_setItem_ne d "provider" "results" (PyVal.str "tavily") (by decide)

/-- Counterexample for C5: a DuckDuckGo backend returning four results
under max_results three yields an adapter response holding four items. -/
theorem results_truncation_cex :
    (getResults (search_duckduckgo (Except.ok [ddgRaw0, ddgRaw0, ddgRaw0, ddgRaw0])
        "q" 3)).length = 4 ∧ ¬(4 ≤ 3) :=
  ⟨rfl, by norm_num⟩

/-- Claim C3: any transport-level fault (timeout, request exception or any
other exception) is converted by http_request into an outcome with success
false, status_code exactly 0, empty headers and the corresponding
human-readable diagnostic string in content, echoing the requested url;
the embedding is a total function, so nothing is raised. -/
theorem http_request_total_on_fault (net : Kwargs → Except TransportErr HttpResp)
    (url method : String) (headers : Option (List (String × String)))
    (data : Option (List (String × PyVal))) (params : Option (List (String × String)))
    (timeout : Nat) (err : TransportErr)
    (h : net (buildKwargs url method headers data params timeout) = Except.error err) :
    http_request net url method headers data params timeout =
      ⟨false, 0, [], PyVal.str (transportDiag timeout err), url⟩ := by
  unfold http_request
  rw [h]
  cases err <;> rfl

/-- Witness for C3 at a transport that times out. -/
theorem http_request_total_on_fault_w :
    http_request (fun _ => Except.error TransportErr.timeout) "http://x" "GET"
        Option.none Option.none Option.none 30 =
      ⟨false, 0, [], PyVal.str (transportDiag 30 TransportErr.timeout), "http://x"⟩ :=
  http_request_total_on_fault _ _ _ _ _ _ _ _ rfl

/-- Claim C8: when the transport completes with a response, the outcome
success flag is true exactly when the status code is below 400, and the
status code is reported unchanged. -/
theorem http_request_success_iff (net : Kwargs → Except TransportErr HttpResp)
    (url method : String) (headers : Option (List (String × String)))
    (data : Option (List (String × PyVal))) (params : Option (List (String × String)))
    (timeout : Nat) (resp : HttpResp)
    (h : net (buildKwargs url method headers data params timeout) = Except.ok resp) :
    ((http_request net url method headers data params timeout).success = true ↔
      resp.status_code < 400) ∧
    (http_request net url method headers data params timeout).status_code =
      resp.status_code := by
  unfold http_request
  rw [h]
  exact ⟨by simp, rfl⟩

/-- Witness for C8 at a transport returning a 200 response. -/
theorem http_request_success_iff_w :
    (http_request (fun _ => Except.ok ⟨200, [], Option.none, "ok", "http://x"⟩)
        "http://x" "GET" Option.none Option.none Option.none 30).success = true :=
  (http_request_success_iff _ _ _ _ _ _ _ _ rfl).1.mpr (by norm_num)

/-- Claim C10: an empty dict passed for headers, params or data is falsy
and is omitted from the outgoing request exactly like None: the built
kwargs and hence the whole outcome coincide with the call where that
argument is absent. -/
theorem http_request_empty_falsy (net : Kwargs → Except TransportErr HttpResp)
    (url method : String) (headers : Option (List (String × String)))
    (data : Option (List (String × PyVal))) (params : Option (List (String × String)))
    (timeout : Nat) :
    (buildKwargs url method (some []) data params timeout =
       buildKwargs url method Option.none data params timeout ∧
     http_request net url method (some []) data params timeout =
       http_request net url method Option.none data params timeout) ∧
    (buildKwargs url method headers data (some []) timeout =
       buildKwargs url method headers data Option.none timeout ∧
     http_request net url method headers data (some []) timeout =
       http_request net url method headers data Option.none timeout) ∧
    (buildKwargs url method headers (some []) params timeout =
       buildKwargs url method headers Option.none params timeout ∧
     http_request net url method headers (some []) params timeout =
       http_request net url method headers Option.none params timeout) :=
  ⟨⟨rfl, rfl⟩, ⟨rfl, rfl⟩, ⟨rfl, rfl⟩⟩

/-- Claim C7: when the HTTP response carries an error status (at least
400, below 600 as every HTTP status is), fetch_url returns the
error-shaped dict over the input url whose message starts with the status
code, and no markdown body: the returned dict has no markdown_content
key; the embedding is total, so nothing escapes the boundary. -/
theorem fetch_url_error_status (md : String → String) (url : String) (timeout : Nat)
    (resp : GetResp) (h4 : 400 ≤ resp.status_code) (h6 : resp.status_code < 600) :
    ∃ rest, fetch_url (Except.ok resp) md url timeout =
        [("error", PyVal.str ("Fetch URL error: " ++ (toString resp.status_code ++ rest))),
         ("url", PyVal.str url)] ∧
      hasKey (fetch_url (Except.ok resp) md url timeout) "markdown_content" = false := by
  have hmsg : ∀ m, raise_for_status resp = some m →
      fetch_url (Except.ok resp) md url timeout =
        [("error", PyVal.str ("Fetch URL error: " ++ m)), ("url", PyVal.str url)] := by
    intro m hm
    have hred : fetch_url (Except.ok resp) md url timeout =
        (match raise_for_status resp with
         | some e => [("error", PyVal.str ("Fetch URL error: " ++ e)),
                      ("url", PyVal.str url)]
         | none =>
           let markdown_content := md resp.text
           [("url", PyVal.str resp.url),
            ("markdown_content", PyVal.str markdown_content),
            ("status_code", PyVal.num (resp.status_code : ℚ)),
            ("content_length", PyVal.num (markdown_content.length : ℚ))]) := rfl
    rw [hred, hm]
  by_cases h5 : resp.status_code < 500
  · have hm : raise_for_status resp =
        some (toString resp.status_code ++ " Client Error: " ++ resp.reason ++
              " for url: " ++ resp.url) := by
      unfold raise_for_status
      rw [if_pos ⟨h4, h5⟩]
    refine ⟨" Client Error: " ++ resp.reason ++ " for url: " ++ resp.url, ?_, ?_⟩
    · rw [hmsg _ hm]
      simp [String.append_assoc]
    · rw [hmsg _ hm]
      rfl
  · have h5b : 500 ≤ resp.status_code := Nat.le_of_not_lt h5
    have hm : raise_for_status resp =
        some (toString resp.status_code ++ " Server Error: " ++ resp.reason ++
              " for url: " ++ resp.url) := by
      unfold raise_for_status
      rw [if_neg (fun hc => h5 hc.2), if_pos ⟨h5b, h6⟩]
    refine ⟨" Server Error: " ++ resp.reason ++ " for url: " ++ resp.url, ?_, ?_⟩
    · rw [hmsg _ hm]
      simp [String.append_assoc]
    · rw [hmsg _ hm]
      rfl

/-- Witness for C7 at a concrete 404 response. -/
theorem fetch_url_error_status_w :
    ∃ rest, fetch_url (Except.ok resp404) id "http://x/e" 30 =
        [("error", PyVal.str ("Fetch URL error: " ++ (toString resp404.status_code ++ rest))),
         ("url", PyVal.str "http://x/e")] ∧
      hasKey (fetch_url (Except.ok resp404) id "http://x/e" 30) "markdown_content" = false :=
  fetch_url_error_status id "http://x/e" 30 resp404 (by decide) (by decide)
